import Mathlib

/-!
Shallow embedding of `src/server.py` (a FastAPI analytics backend) and proofs
about it.

Modelling conventions, used throughout:

* Python `float` values are modelled as exact rationals (`ℚ`).  All numeric
  results asserted by the spec are decimal values on which ideal rational
  arithmetic and IEEE-754 double arithmetic agree after the program's final
  `round(_, 1)`.  `float` overflow to infinity and `nan` are not representable
  in this model; the strings `"inf"`/`"nan"` are treated as unparsable, which
  yields the same observable output in `format_duration` (Python's `int()`
  raises on them and the `except:` returns `"0:00"`) and an aborting exception
  in the aggregation paths either way.
* Python exceptions are modelled by the `PyExc` sum type, distinguishing
  `ValueError` (caught by the handler's first `except` clause) from every
  other exception class.
* The external GA4 client is a parameter: a function from the constructed
  report request to either a response or an exception.
* `datetime.date` values are modelled by their proleptic-Gregorian ordinal
  (`date.toordinal`, day 1 = 0001-01-01), which makes `timedelta` subtraction
  exact integer subtraction; `strftime("%Y-%m-%d")` is modelled by an
  executable ordinal-to-civil conversion validated against CPython below.
* Mathlib's `ℚ` arithmetic does not reduce inside the kernel, so the model
  computes with small executable wrappers (`qMul`, `qDiv`, `qOfInt`, `clamp1`)
  defined via `Rat.divInt`; bridge lemmas below identify them with the
  ordinary `*`, `/`, `↑` and `max _ 1`.
-/

namespace GA

/-! ## Executable rational primitives -/

/-- Multiplication on `ℚ`, computed on numerators/denominators. -/
def qMul (a b : ℚ) : ℚ := Rat.divInt (a.num * b.num) ((a.den : Int) * (b.den : Int))

/-- True division on `ℚ`, computed on numerators/denominators.  Python raises
`ZeroDivisionError` on a zero divisor; every division in `server.py` has a
denominator clamped to at least 1, so that branch is unreachable. -/
def qDiv (a b : ℚ) : ℚ := Rat.divInt (a.num * (b.den : Int)) ((a.den : Int) * b.num)

/-- Embeds an integer into `ℚ`. -/
def qOfInt (n : Int) : ℚ := Rat.divInt n 1

/-- Python `max(q, 1)` as used for division-by-zero protection. -/
def clamp1 (q : ℚ) : ℚ := if q < 1 then 1 else q

/-- Python `int(x)` on a float value: truncation toward zero. -/
def pyTrunc (q : ℚ) : Int := Int.tdiv q.num (q.den : Int)

/-- Round to the nearest integer, ties to even — the rounding mode of Python 3
`round`. -/
def roundHE (q : ℚ) : Int :=
  let f := q.num / (q.den : Int)
  let rem := q.num - f * (q.den : Int)
  if 2 * rem < (q.den : Int) then f
  else if (q.den : Int) < 2 * rem then f + 1
  else if f % 2 = 0 then f else f + 1

/-- Python `round(x, 1)` (idealised to exact rationals). -/
def pyRound1 (q : ℚ) : ℚ := Rat.divInt (roundHE (qMul q (qOfInt 10))) 10

/-- Mathematical floor of a rational, executable. -/
def ratFloor (q : ℚ) : Int := q.num / (q.den : Int)

/-! ### Bridge lemmas to Mathlib arithmetic -/

theorem qOfInt_eq (n : Int) : qOfInt n = (n : ℚ) := by
  unfold qOfInt
  rw [Rat.divInt_eq_div]
  norm_num

theorem qMul_eq (a b : ℚ) : qMul a b = a * b := by
  unfold qMul
  rw [Rat.divInt_eq_div]
  push_cast
  conv_rhs => rw [← Rat.num_div_den a, ← Rat.num_div_den b]
  rw [div_mul_div_comm]

theorem qDiv_eq (a b : ℚ) : qDiv a b = a / b := by
  unfold qDiv
  rcases eq_or_ne b 0 with hb | hb
  · subst hb
    simp [Rat.divInt_eq_div]
  · have hnum : b.num ≠ 0 := Rat.num_ne_zero.mpr hb
    rw [Rat.divInt_eq_div]
    push_cast
    conv_rhs => rw [← Rat.num_div_den a, ← Rat.num_div_den b]
    have hda : ((a.den : ℚ)) ≠ 0 := by
      exact_mod_cast a.den_nz
    have hdb : ((b.den : ℚ)) ≠ 0 := by
      exact_mod_cast b.den_nz
    have hnb : ((b.num : ℚ)) ≠ 0 := by
      exact_mod_cast hnum
    field_simp

theorem clamp1_eq (q : ℚ) : clamp1 q = max q 1 := by
  unfold clamp1
  rcases le_or_lt 1 q with h | h
  · rw [if_neg (not_lt.mpr h), max_eq_left h]
  · rw [if_pos h, max_eq_right h.le]

theorem ratFloor_eq (q : ℚ) : ratFloor q = ⌊q⌋ := by
  unfold ratFloor
  rw [Rat.floor_def]

/-! ## Python exceptions and `Except` plumbing -/

/-- A raised Python exception: either a `ValueError` (matched by the handler's
first `except` clause) or any other exception class. -/
inductive PyExc where
  | valueError (msg : String)
  | generic (msg : String)
deriving DecidableEq

instance {ε α : Type} [DecidableEq ε] [DecidableEq α] : DecidableEq (Except ε α) := fun x y =>
  match x, y with
  | .ok a, .ok b =>
      if h : a = b then .isTrue (by rw [h]) else .isFalse (by simp [h])
  | .error e, .error f =>
      if h : e = f then .isTrue (by rw [h]) else .isFalse (by simp [h])
  | .ok _, .error _ => .isFalse (by simp)
  | .error _, .ok _ => .isFalse (by simp)

/-- Sequencing of fallible Python statements (written out explicitly rather
than with `do`-notation so that proofs can unfold it with `simp`). -/
def bindE {α β : Type} (x : Except PyExc α) (f : α → Except PyExc β) : Except PyExc β :=
  match x with
  | .ok a => f a
  | .error e => .error e

theorem bindE_ok {α β : Type} (x : Except PyExc α) (f : α → Except PyExc β) (b : β) :
    bindE x f = .ok b ↔ ∃ a, x = .ok a ∧ f a = .ok b := by
  cases x with
  | ok a => simp [bindE]
  | error e => simp [bindE]

/-! ## Python `float(str)` -/

/-- ASCII whitespace stripped by Python's `float`/`int` string conversion. -/
def isPyWS (c : Char) : Bool :=
  c = ' ' ∨ c = '\t' ∨ c = '\n' ∨ c = '\r' ∨ c = '\x0b' ∨ c = '\x0c'

def stripWS (cs : List Char) : List Char :=
  ((cs.dropWhile isPyWS).reverse.dropWhile isPyWS).reverse

/-- Value of a string of ASCII digits, most significant first. -/
def digitsToNat (cs : List Char) : Nat :=
  cs.foldl (fun a c => 10 * a + (c.toNat - 48)) 0

def takeDigits (cs : List Char) : List Char × List Char :=
  (cs.takeWhile Char.isDigit, cs.dropWhile Char.isDigit)

/-- Exponent suffix of a float literal (after the `e`/`E`). -/
def pyFloatExp (mant : ℚ) (r : List Char) : Option ℚ :=
  let sgnRest : Bool × List Char :=
    match r with
    | '+' :: t => (true, t)
    | '-' :: t => (false, t)
    | t => (true, t)
  let ed := takeDigits sgnRest.2
  if ed.1.isEmpty ∨ ¬ ed.2.isEmpty then none
  else if sgnRest.1 then some (qMul mant (qOfInt ((10 : Int) ^ digitsToNat ed.1)))
  else some (qDiv mant (qOfInt ((10 : Int) ^ digitsToNat ed.1)))

/-- Model of Python `float(s)` on the stripped character list: optional sign,
integer part, optional fractional part, optional exponent.  Not modelled
(treated as parse failures): underscore digit separators, non-ASCII digits,
and the special values `inf`/`infinity`/`nan` (see the header comment). -/
def pyFloatCore (cs : List Char) : Option ℚ :=
  let sgnRest : Int × List Char :=
    match cs with
    | '+' :: r => (1, r)
    | '-' :: r => (-1, r)
    | r => (1, r)
  let ip := takeDigits sgnRest.2
  let fpRest : List Char × List Char :=
    match ip.2 with
    | '.' :: r => takeDigits r
    | r => ([], r)
  if ip.1.isEmpty ∧ fpRest.1.isEmpty then none
  else
    let mant : ℚ :=
      Rat.divInt
        (sgnRest.1 * ((digitsToNat ip.1 * 10 ^ fpRest.1.length + digitsToNat fpRest.1 : Nat) : Int))
        ((10 : Int) ^ fpRest.1.length)
    match fpRest.2 with
    | [] => some mant
    | 'e' :: r => pyFloatExp mant r
    | 'E' :: r => pyFloatExp mant r
    | _ => none

/-- Python `float(s)`: `none` models a raised `ValueError`. -/
def pyFloat (s : String) : Option ℚ := pyFloatCore (stripWS s.toList)

/-- Python `float(s)` with the raised exception made explicit
(message as raised by CPython, with `repr` quoting). -/
def pyFloatE (s : String) : Except PyExc ℚ :=
  match pyFloat s with
  | some q => .ok q
  | none => .error (.valueError ("could not convert string to float: \x27" ++ s ++ "\x27"))

example : pyFloat "125" = some 125 := by decide
example : pyFloat "0" = some 0 := by decide
example : pyFloat "abc" = none := by decide
example : pyFloat "-0.5" = some (Rat.divInt (-1) 2) := by decide
example : pyFloat " 5 " = some 5 := by decide
example : pyFloat "1e3" = some 1000 := by decide
example : pyFloat "1." = some 1 := by decide
example : pyFloat ".5" = some (Rat.divInt 1 2) := by decide
example : pyFloat "" = none := by decide
example : pyFloat "." = none := by decide
example : pyFloat "1e" = none := by decide

/-! ## `format_duration` (src/server.py lines 59-66) -/

/-- Zero-padded-to-2 rendering of the seconds component, Python `f"{secs:02d}"`
for `0 ≤ secs ≤ 99` (all reachable values lie in `[0, 59]`). -/
def pad2Int (i : Int) : String :=
  if i < 10 then "0" ++ toString i else toString i

/--
```
def format_duration(seconds):
    try:
        mins = int(float(seconds)) // 60
        secs = int(float(seconds)) % 60
        return f"{mins}:{secs:02d}"
    except:
        return "0:00"
```
Python `//` and `%` are floor division and the matching modulus (`Int.fdiv` /
`Int.fmod`); `int(...)` truncates toward zero (`pyTrunc`). -/
def format_duration (seconds : String) : String :=
  match pyFloat seconds with
  | some q =>
      let mins := Int.fdiv (pyTrunc q) 60
      let secs := Int.fmod (pyTrunc q) 60
      toString mins ++ ":" ++ pad2Int secs
  | none => "0:00"

example : format_duration "125" = "2:05" := by decide
example : format_duration "0" = "0:00" := by decide
example : format_duration "abc" = "0:00" := by decide
example : format_duration "-0.5" = "0:00" := by decide
example : format_duration "-61" = "-2:59" := by decide

/-- The duration formula exactly as claim C4 words it: the *floor* of the
parsed seconds value, then floor-division and modulus by 60, rendered with the
minutes unpadded and the seconds zero-padded to two digits. -/
def claimedDurationFormat (s : String) : String :=
  match pyFloat s with
  | some q =>
      let n := ratFloor q
      toString (Int.fdiv n 60) ++ ":" ++ pad2Int (Int.fmod n 60)
  | none => "0:00"

/-! ## `format_date_label` (src/server.py lines 68-74)

`datetime.strptime(date_str, "%Y%m%d")` compiles the format to the regex
`(?P<Y>\d\d\d\d)(?P<m>1[0-2]|0[1-9]|[1-9])(?P<d>3[01]|[12]\d|0[1-9]|[1-9])`
(see CPython `_strptime.py`), takes the first match in backtracking order,
raises `ValueError` if the match does not consume the whole string, and then
builds the `datetime`, which validates the calendar date (year ≥ 1).  Because
nothing follows `%d` in the pattern and the alternatives for each group are
tried longest-first with all day alternatives of equal length preceding the
final one-digit one, the first regex match in backtracking order consumes the
whole string whenever *any* combination of alternatives does; so the model
below — first full-consumption match in alternation order, then calendar
validation — computes exactly CPython's result. -/

def digitVal (c : Char) : Nat := c.toNat - 48

/-- Alternatives of the `%m` group `1[0-2]|0[1-9]|[1-9]`, in regex order,
as (month value, remaining input) pairs. -/
def monthCands : List Char → List (Nat × List Char)
  | c1 :: c2 :: rest =>
      (if c1 = '1' ∧ ('0' ≤ c2 ∧ c2 ≤ '2') then [(10 + digitVal c2, rest)] else [])
      ++ (if c1 = '0' ∧ ('1' ≤ c2 ∧ c2 ≤ '9') then [(digitVal c2, rest)] else [])
      ++ (if '1' ≤ c1 ∧ c1 ≤ '9' then [(digitVal c1, c2 :: rest)] else [])
  | [c1] => if '1' ≤ c1 ∧ c1 ≤ '9' then [(digitVal c1, [])] else []
  | [] => []

/-- Alternatives of the `%d` group `3[01]|[12]\d|0[1-9]|[1-9]`, in regex
order. -/
def dayCands : List Char → List (Nat × List Char)
  | c1 :: c2 :: rest =>
      (if c1 = '3' ∧ ('0' ≤ c2 ∧ c2 ≤ '1') then [(30 + digitVal c2, rest)] else [])
      ++ (if ('1' ≤ c1 ∧ c1 ≤ '2') ∧ ('0' ≤ c2 ∧ c2 ≤ '9')
          then [(10 * digitVal c1 + digitVal c2, rest)] else [])
      ++ (if c1 = '0' ∧ ('1' ≤ c2 ∧ c2 ≤ '9') then [(digitVal c2, rest)] else [])
      ++ (if '1' ≤ c1 ∧ c1 ≤ '9' then [(digitVal c1, c2 :: rest)] else [])
  | [c1] => if '1' ≤ c1 ∧ c1 ≤ '9' then [(digitVal c1, [])] else []
  | [] => []

/-- Regex phase of `strptime(s, "%Y%m%d")`: four digits of year, then the
first month/day alternative combination that consumes the whole input. -/
def ymdMatch : List Char → Option (Nat × Nat × Nat)
  | c1 :: c2 :: c3 :: c4 :: rest =>
      if c1.isDigit ∧ c2.isDigit ∧ c3.isDigit ∧ c4.isDigit then
        (monthCands rest).findSome? (fun mc =>
          (dayCands mc.2).findSome? (fun dc =>
            if dc.2 = [] then some (digitsToNat [c1, c2, c3, c4], mc.1, dc.1) else none))
      else none
  | _ => none

def isLeap (y : Nat) : Bool := y % 4 = 0 ∧ (y % 100 ≠ 0 ∨ y % 400 = 0)

def daysInMonth (y m : Nat) : Nat :=
  if m = 2 then (if isLeap y then 29 else 28)
  else if m = 4 ∨ m = 6 ∨ m = 9 ∨ m = 11 then 30
  else 31

/-- `datetime.strptime(s, "%Y%m%d")`, as year/month/day; `none` models a
raised `ValueError` (regex failure, incomplete consumption, or an invalid
calendar date — `datetime` requires `1 ≤ year`). -/
def strptimeYmd (s : String) : Option (Nat × Nat × Nat) :=
  match ymdMatch s.toList with
  | some (y, m, d) => if 1 ≤ y ∧ d ≤ daysInMonth y m then some (y, m, d) else none
  | none => none

/-- Month abbreviations of `strftime("%b")` in the C locale. -/
def monthAbbrs : List String :=
  ["Jan", "Feb", "Mar", "Apr", "May", "Jun", "Jul", "Aug", "Sep", "Oct", "Nov", "Dec"]

def monthAbbr (m : Nat) : String := monthAbbrs.getD (m - 1) ""

/-- Decimal digit character. -/
def digitChar (k : Nat) : Char := Char.ofNat (48 + k)

/-- Two-digit zero-padded rendering (`strftime("%d")`, or an `%m`/`%d` field);
faithful for arguments below 100, which covers every call site. -/
def pad2 (n : Nat) : String := String.mk [digitChar (n / 10), digitChar (n % 10)]

/--
```
def format_date_label(date_str):
    try:
        date_obj = datetime.strptime(date_str, "%Y%m%d")
        return date_obj.strftime("%b %d")
    except:
        return date_str
```
-/
def format_date_label (s : String) : String :=
  match strptimeYmd s with
  | some (_, m, d) => monthAbbr m ++ " " ++ pad2 d
  | none => s

example : format_date_label "20240305" = "Mar 05" := by decide
example : format_date_label "notadate" = "notadate" := by decide
example : format_date_label "2024305" = "Mar 05" := by decide
example : format_date_label "202435" = "Mar 05" := by decide
example : format_date_label "2024230" = "2024230" := by decide
example : format_date_label "20241311" = "20241311" := by decide
example : format_date_label "2024131" = "Jan 31" := by decide
example : format_date_label "0000101" = "0000101" := by decide
example : format_date_label "20240229" = "Feb 29" := by decide
example : format_date_label "20230229" = "20230229" := by decide

/-- Four-digit zero-padded rendering, used to *construct* canonical
`YYYYMMDD` strings in theorem statements about `format_date_label`. -/
def pad4 (n : Nat) : String :=
  String.mk [digitChar (n / 1000), digitChar (n / 100 % 10), digitChar (n / 10 % 10),
    digitChar (n % 10)]

/-! ## Calendar: `date.fromordinal` + `strftime("%Y-%m-%d")`

`datetime.now().date()` and the `timedelta` arithmetic of the handler are
modelled on proleptic-Gregorian ordinals (`date.toordinal`; day 1 is
0001-01-01, the maximum is 3652059 = 9999-12-31).  The ordinal-to-civil
conversion below is the standard era-based algorithm; it is validated against
CPython's `date.fromordinal` on boundary and interior points by the `example`s
following it. -/

def cfdEra (z : Nat) : Nat := z / 146097

def cfdDoe (z : Nat) : Nat := z % 146097

def cfdYoe (doe : Nat) : Nat := (doe - doe / 1460 + doe / 36524 - doe / 146096) / 365

def cfdDoy (doe : Nat) : Nat := doe - (365 * cfdYoe doe + cfdYoe doe / 4 - cfdYoe doe / 100)

def cfdMp (doy : Nat) : Nat := (5 * doy + 2) / 153

/-- Ordinal (1 = 0001-01-01) to Gregorian (year, month, day). -/
def civilFromDays (z0 : Nat) : Nat × Nat × Nat :=
  let z := z0 + 305
  let doe := cfdDoe z
  let doy := cfdDoy doe
  let mp := cfdMp doy
  let y := cfdYoe doe + cfdEra z * 400
  let d := doy - (153 * mp + 2) / 5 + 1
  let m := if mp < 10 then mp + 3 else mp - 9
  if m ≤ 2 then (y + 1, m, d) else (y, m, d)

example : civilFromDays 1 = (1, 1, 1) := by decide
example : civilFromDays 366 = (2, 1, 1) := by decide
example : civilFromDays 719163 = (1970, 1, 1) := by decide
example : civilFromDays 738950 = (2024, 3, 5) := by decide
example : civilFromDays 3652059 = (9999, 12, 31) := by decide
example : civilFromDays 364878 = (1000, 1, 1) := by decide
example : civilFromDays 365000 = (1000, 5, 3) := by decide

/-- `strftime("%Y")` under glibc: the year *without* zero padding (CPython on
Linux prints e.g. year 5 as `"5"`).  Faithful for years up to 9999, the
`datetime` maximum. -/
def yearStr (y : Nat) : String :=
  if y < 10 then String.mk [digitChar y]
  else if y < 100 then String.mk [digitChar (y / 10), digitChar (y % 10)]
  else if y < 1000 then String.mk [digitChar (y / 100), digitChar (y / 10 % 10), digitChar (y % 10)]
  else String.mk [digitChar (y / 1000), digitChar (y / 100 % 10), digitChar (y / 10 % 10),
    digitChar (y % 10)]

/-- `date.strftime("%Y-%m-%d")` of the date with the given ordinal. -/
def formatYMD (n : Int) : String :=
  match civilFromDays n.toNat with
  | (y, m, d) => yearStr y ++ "-" ++ pad2 m ++ "-" ++ pad2 d

example : formatYMD 738950 = "2024-03-05" := by decide
example : formatYMD (738950 - 6) = "2024-02-28" := by decide
example : formatYMD 3652059 = "9999-12-31" := by decide

/-- Checks the `YYYY-MM-DD` shape: ten characters, four digits, dash, two
digits, dash, two digits. -/
def isYMDFormat (s : String) : Bool :=
  match s.toList with
  | [a, b, c, d, e, f, g, h, i, j] =>
      a.isDigit && b.isDigit && c.isDigit && d.isDigit && (e == '-') &&
      f.isDigit && g.isDigit && (h == '-') && i.isDigit && j.isDigit
  | _ => false

example : isYMDFormat "2024-03-05" = true := by decide
example : isYMDFormat "999-12-31" = false := by decide

/-! ## Flat report records (Python dicts from field name to raw string) -/

/-- A Python dict with string keys and values, as an association list with
unique keys in insertion order. -/
abbrev Record := List (String × String)

/-- Dict lookup. -/
def rlookup : Record → String → Option String
  | [], _ => none
  | (k, v) :: r, key => if k = key then some v else rlookup r key

/-- Python `dict.get(key, dflt)`. -/
def rgetD (r : Record) (key dflt : String) : String := (rlookup r key).getD dflt

/-- Python `d[key] = v`: updates the value in place if the key is present,
appends otherwise. -/
def rinsert : Record → String → String → Record
  | [], key, v => [(key, v)]
  | (k, w) :: r, key, v => if k = key then (key, v) :: r else (k, w) :: rinsert r key v

/-- Sequence of dict assignments. -/
def insertPairs (r : Record) (ps : List (String × String)) : Record :=
  ps.foldl (fun acc p => rinsert acc p.1 p.2) r

/-- Value stored at `key` by the *last* assignment in `ps`, if any. -/
def lookupLast (ps : List (String × String)) (key : String) : Option String :=
  ps.foldl (fun acc p => if p.1 = key then some p.2 else acc) none

/-- `float(item.get(key, 0))`: missing keys default to `0`, present values
are parsed as floats (raising `ValueError` on garbage). -/
def getF (r : Record) (key : String) : Except PyExc ℚ :=
  match rlookup r key with
  | some s => pyFloatE s
  | none => .ok 0

/-- Total variant of `getF` used in theorem statements: the parsed value, or
`0` when the key is missing.  Agrees with `getF` whenever `getF` succeeds. -/
def getFD (r : Record) (key : String) : ℚ :=
  match rlookup r key with
  | some s => (pyFloat s).getD 0
  | none => 0

/-! ## The GA4 client (external collaborator) and `get_ga4_data`
(src/server.py lines 38-57) -/

/-- The `RunReportRequest` constructed by `get_ga4_data`. -/
structure RunReportRequest where
  property : String
  start_date : String
  end_date : String
  metrics : List String
  dimensions : List String
deriving DecidableEq

/-- A GA4 `RunReportResponse`: parallel header name lists and rows of
(dimension values, metric values). -/
structure RunReportResponse where
  dimension_headers : List String
  metric_headers : List String
  rows : List (List String × List String)
deriving DecidableEq

/-- The external client: `client.run_report(request)` either returns a
response or raises. -/
def Ga4Client : Type := RunReportRequest → Except PyExc RunReportResponse

/-- Flattening of one response row into a record: dimension values under
their header names first (skipped entirely when no dimensions were
requested, per `if dimensions:`), then metric values under their header
names.  Headers are paired with values positionally; rows with more values
than headers (which would raise `IndexError` in Python) are outside the
model, hence the length hypotheses in the theorems below. -/
def buildItem (resp : RunReportResponse) (dims : List String)
    (row : List String × List String) : Record :=
  insertPairs
    (if dims.isEmpty then [] else insertPairs [] (resp.dimension_headers.zip row.1))
    (resp.metric_headers.zip row.2)

/-- The `RunReportRequest` literal of lines 39-44. -/
def mkReq (propertyId start_date end_date : String) (metrics dimensions : List String) :
    RunReportRequest :=
  { property := "properties/" ++ propertyId
    start_date := start_date
    end_date := end_date
    metrics := metrics
    dimensions := dimensions }

def get_ga4_data (propertyId : String) (client : Ga4Client) (start_date end_date : String)
    (metrics : List String) (dimensions : List String) : Except PyExc (List Record) :=
  bindE (client (mkReq propertyId start_date end_date metrics dimensions))
    (fun resp => .ok (resp.rows.map (buildItem resp dimensions)))

/-! ## Stable sort by raw date string (`sorted(..., key=lambda x: x.get("date", ""))`) -/

/-- Lexicographic strict comparison on code points — Python `str.__lt__`
(Lean `Char` values are Unicode code points, as in CPython). -/
def charListLt : List Char → List Char → Bool
  | [], [] => false
  | [], _ :: _ => true
  | _ :: _, [] => false
  | a :: as, b :: bs => if a < b then true else if b < a then false else charListLt as bs

def strLt (a b : String) : Bool := charListLt a.toList b.toList

/-- The sort key of the traffic-over-time sort. -/
def dateKey (r : Record) : String := rgetD r "date" ""

/-- Insert a record into an already sorted list, before the first element
whose key is not smaller.  Folding this from the right is a stable sort:
Python's `sorted` is stable, and a stable sort by a total preorder is a
unique function of the input, so any stable algorithm models it. -/
def insortByDate (r : Record) : List Record → List Record
  | [] => [r]
  | x :: xs => if strLt (dateKey x) (dateKey r) then x :: insortByDate r xs else r :: x :: xs

def sortByDate (l : List Record) : List Record := l.foldr insortByDate []

/-! ## Aggregates (src/server.py lines 95-220) -/

structure Overview where
  periodDays : Int
  startDate : String
  endDate : String
  totalUsers : Int
  newUsers : Int
  sessions : Int
  engagedSessions : Int
  pageViews : Int
  avgSessionDuration : String
  bounceRate : ℚ
  engagementRate : ℚ
  conversions : Int
  conversionRate : ℚ
deriving DecidableEq

/-- Lines 107-127: the overview dict. Empty input (falsy `overview_raw`)
yields the empty dict, modelled as `none`.  `float(data.get("conversions", 0))`
is evaluated twice in the source with identical results; it is bound once
here. -/
def computeOverview (days : Int) (start_date end_date : String) (raw : List Record) :
    Except PyExc (Option Overview) :=
  match raw with
  | [] => .ok none
  | data :: _ =>
      bindE (getF data "sessions") (fun total_sessions =>
      bindE (getF data "totalUsers") (fun totalUsers =>
      bindE (getF data "newUsers") (fun newUsers =>
      bindE (getF data "engagedSessions") (fun engagedSessions =>
      bindE (getF data "screenPageViews") (fun pageViews =>
      bindE (getF data "bounceRate") (fun bounceRate =>
      bindE (getF data "engagementRate") (fun engagementRate =>
      bindE (getF data "conversions") (fun conversions =>
        .ok (some
          { periodDays := days
            startDate := start_date
            endDate := end_date
            totalUsers := pyTrunc totalUsers
            newUsers := pyTrunc newUsers
            sessions := pyTrunc total_sessions
            engagedSessions := pyTrunc engagedSessions
            pageViews := pyTrunc pageViews
            avgSessionDuration := format_duration (rgetD data "averageSessionDuration" "0")
            bounceRate := pyRound1 (qMul bounceRate (qOfInt 100))
            engagementRate := pyRound1 (qMul engagementRate (qOfInt 100))
            conversions := pyTrunc conversions
            conversionRate :=
              pyRound1 (qMul (qDiv conversions (clamp1 total_sessions)) (qOfInt 100)) })))))))))

structure TrafficOverTime where
  labels : List String
  activeUsers : List Int
  sessions : List Int
  pageViews : List Int
  engagedSessions : List Int
deriving DecidableEq

/-- One iteration of the loop at lines 146-151. -/
def trafficStep (acc : TrafficOverTime) (row : Record) : Except PyExc TrafficOverTime :=
  bindE (getF row "activeUsers") (fun au =>
  bindE (getF row "sessions") (fun se =>
  bindE (getF row "screenPageViews") (fun pv =>
  bindE (getF row "engagedSessions") (fun eg =>
    .ok { labels := acc.labels ++ [format_date_label (rgetD row "date" "")]
          activeUsers := acc.activeUsers ++ [pyTrunc au]
          sessions := acc.sessions ++ [pyTrunc se]
          pageViews := acc.pageViews ++ [pyTrunc pv]
          engagedSessions := acc.engagedSessions ++ [pyTrunc eg] }))))

def trafficLoop : TrafficOverTime → List Record → Except PyExc TrafficOverTime
  | acc, [] => .ok acc
  | acc, r :: rs => bindE (trafficStep acc r) (fun acc2 => trafficLoop acc2 rs)

/-- Lines 138-151. -/
def computeTraffic (raw : List Record) : Except PyExc TrafficOverTime :=
  trafficLoop ⟨[], [], [], [], []⟩ (sortByDate raw)

structure TopPage where
  page : String
  views : Int
  avgTime : String
  bounceRate : ℚ
  engagedSessions : Int
deriving DecidableEq

/-- One element of the list comprehension at lines 162-171. -/
def computeTopPage (item : Record) : Except PyExc TopPage :=
  bindE (getF item "screenPageViews") (fun views =>
  bindE (getF item "bounceRate") (fun bounce =>
  bindE (getF item "engagedSessions") (fun eg =>
    .ok { page := rgetD item "pagePath" "(not set)"
          views := pyTrunc views
          avgTime := format_duration (rgetD item "averageSessionDuration" "0")
          bounceRate := pyRound1 (qMul bounce (qOfInt 100))
          engagedSessions := pyTrunc eg })))

def topPagesLoop : List Record → Except PyExc (List TopPage)
  | [] => .ok []
  | r :: rs => bindE (computeTopPage r) (fun p =>
      bindE (topPagesLoop rs) (fun ps => .ok (p :: ps)))

structure DeviceCategory where
  labels : List String
  data : List ℚ
  colors : List String
deriving DecidableEq

/-- The loop at lines 185-190: accumulator is
(desktop, mobile, tablet, total).  The dict membership test
`cat in device_map` is the equality chain below; `str.lower` is modelled on
ASCII (GA4 device categories are ASCII). -/
def asciiLower (c : Char) : Char :=
  if 'A' ≤ c ∧ c ≤ 'Z' then Char.ofNat (c.toNat + 32) else c

def strLower (s : String) : String := String.mk (s.toList.map asciiLower)

def devLoop : (Int × Int × Int × Int) → List Record → Except PyExc (Int × Int × Int × Int)
  | acc, [] => .ok acc
  | acc, item :: rest =>
      bindE (getF item "activeUsers") (fun u =>
        let users := pyTrunc u
        let cat := strLower (rgetD item "deviceCategory" "other")
        devLoop
          (if cat = "desktop" then (acc.1 + users, acc.2.1, acc.2.2.1, acc.2.2.2 + users)
           else if cat = "mobile" then (acc.1, acc.2.1 + users, acc.2.2.1, acc.2.2.2 + users)
           else if cat = "tablet" then (acc.1, acc.2.1, acc.2.2.1 + users, acc.2.2.2 + users)
           else (acc.1, acc.2.1, acc.2.2.1, acc.2.2.2 + users))
          rest)

/-- Lines 182-200. -/
def computeDevices (raw : List Record) : Except PyExc DeviceCategory :=
  bindE (devLoop (0, 0, 0, 0) raw) (fun acc =>
    .ok { labels := ["Desktop", "Mobile", "Tablet"]
          data := [pyRound1 (qMul (qDiv (qOfInt acc.1) (clamp1 (qOfInt acc.2.2.2))) (qOfInt 100)),
                   pyRound1 (qMul (qDiv (qOfInt acc.2.1) (clamp1 (qOfInt acc.2.2.2))) (qOfInt 100)),
                   pyRound1 (qMul (qDiv (qOfInt acc.2.2.1) (clamp1 (qOfInt acc.2.2.2))) (qOfInt 100))]
          colors := ["#3b82f6", "#10b981", "#8b5cf6"] })

structure TrafficSources where
  labels : List String
  sessions : List Int
  users : List Int
deriving DecidableEq

/-- The loop at lines 217-220. -/
def sourcesLoop : TrafficSources → List Record → Except PyExc TrafficSources
  | acc, [] => .ok acc
  | acc, item :: rest =>
      bindE (getF item "sessions") (fun se =>
      bindE (getF item "activeUsers") (fun us =>
        sourcesLoop
          { labels := acc.labels ++ [rgetD item "sessionDefaultChannelGroup" "(other)"]
            sessions := acc.sessions ++ [pyTrunc se]
            users := acc.users ++ [pyTrunc us] }
          rest))

def computeSources (raw : List Record) : Except PyExc TrafficSources :=
  sourcesLoop ⟨[], [], []⟩ raw

/-! ## The `/analytics` handler (src/server.py lines 76-242) -/

structure DataPayload where
  overview : Option Overview
  trafficOverTime : TrafficOverTime
  topPages : List TopPage
  deviceCategory : DeviceCategory
  trafficSources : TrafficSources
deriving DecidableEq

structure AnalyticsResponse where
  status : String
  days : Int
  startDate : String
  endDate : String
  data : DataPayload
  timestamp : String
deriving DecidableEq

structure HttpError where
  status : Nat
  detail : String
deriving DecidableEq

def overviewMetrics : List String :=
  ["totalUsers", "newUsers", "sessions", "engagedSessions", "screenPageViews",
   "averageSessionDuration", "bounceRate", "engagementRate", "conversions"]

def trafficMetrics : List String :=
  ["activeUsers", "sessions", "screenPageViews", "engagedSessions"]

def topPagesMetrics : List String :=
  ["screenPageViews", "averageSessionDuration", "bounceRate", "engagedSessions"]

/-- The body of the `try:` block, lines 87-237.  Inputs beyond the validated
`days`: the current date as ordinal (`datetime.now().date()`), the response
timestamp string (`datetime.now().isoformat()`), the `GA4_PROPERTY_ID`
configuration value, and the client construction
(`BetaAnalyticsDataClient()`), whose failure is an exception like any other.
Ordinal under/overflow of the date subtraction (`date` years run 1-9999) is
outside the model and excluded by hypotheses where dates matter. -/
def runPipeline (days : Int) (todayOrd : Int) (timestamp : String) (propertyId : String)
    (clientE : Except PyExc Ga4Client) : Except PyExc AnalyticsResponse :=
  bindE clientE (fun client =>
  let start_date := formatYMD (todayOrd - (days - 1))
  let end_date := formatYMD todayOrd
  bindE (get_ga4_data propertyId client start_date end_date overviewMetrics []) (fun overview_raw =>
  bindE (computeOverview days start_date end_date overview_raw) (fun overview =>
  bindE (get_ga4_data propertyId client start_date end_date trafficMetrics ["date"]) (fun traffic_raw =>
  bindE (computeTraffic traffic_raw) (fun traffic_over_time =>
  bindE (get_ga4_data propertyId client start_date end_date topPagesMetrics ["pagePath"]) (fun top_pages_raw =>
  bindE (topPagesLoop (top_pages_raw.take 10)) (fun top_pages =>
  bindE (get_ga4_data propertyId client start_date end_date ["activeUsers"] ["deviceCategory"]) (fun devices_raw =>
  bindE (computeDevices devices_raw) (fun device_category =>
  bindE (get_ga4_data propertyId client start_date end_date ["sessions", "activeUsers"]
      ["sessionDefaultChannelGroup"]) (fun sources_raw =>
  bindE (computeSources (sources_raw.take 8)) (fun traffic_sources =>
    .ok { status := "success"
          days := days
          startDate := start_date
          endDate := end_date
          data := { overview := overview
                    trafficOverTime := traffic_over_time
                    topPages := top_pages
                    deviceCategory := device_category
                    trafficSources := traffic_sources }
          timestamp := timestamp })))))))))))

/-- Lines 86-242: the `try`/`except` of `get_analytics`.  `except ValueError`
comes first (400, `"Invalid days value: ..."`), then `except Exception`
(500, `"Analytics error: ..."`).  Nothing inside the `try:` raises
`HTTPException` itself. -/
def get_analytics (days : Int) (todayOrd : Int) (timestamp : String) (propertyId : String)
    (clientE : Except PyExc Ga4Client) : Except HttpError AnalyticsResponse :=
  match runPipeline days todayOrd timestamp propertyId clientE with
  | .ok r => .ok r
  | .error (.valueError m) => .error ⟨400, "Invalid days value: " ++ m⟩
  | .error (.generic m) => .error ⟨500, "Analytics error: " ++ m⟩

/-! ## Request dispatch: parameter validation and authentication -/

/-- Python `int(s)` (as used by the framework to coerce the query string):
optional surrounding whitespace, optional sign, one or more ASCII digits.
Underscore separators and non-ASCII digits are not modelled. -/
def pyIntParse (s : String) : Option Int :=
  let cs := stripWS s.toList
  let sgnRest : Int × List Char :=
    match cs with
    | '+' :: r => (1, r)
    | '-' :: r => (-1, r)
    | r => (1, r)
  if sgnRest.2.isEmpty ∨ ¬ (sgnRest.2.all Char.isDigit) then none
  else some (sgnRest.1 * (digitsToNat sgnRest.2 : Int))

example : pyIntParse "30" = some 30 := by decide
example : pyIntParse "-5" = some (-5) := by decide
example : pyIntParse " 30 " = some 30 := by decide
example : pyIntParse "1.5" = none := by decide
example : pyIntParse "abc" = none := by decide

/-- Stand-in for FastAPI's 422 validation response body (the real body is a
structured JSON error list; only the status code matters to the claims). -/
def validationDetail : String := "query parameter days failed validation"

/-- FastAPI's handling of `days: int = Query(30, ge=1, le=365)`
(src/server.py lines 77-84): a missing parameter defaults to 30; a value
that fails integer coercion or the `ge`/`le` bounds makes request validation
fail *before the handler body runs*, and FastAPI's default
`RequestValidationError` handler responds with HTTP **422 Unprocessable
Entity** (not 400). -/
def analyticsEndpoint (daysParam : Option String) (todayOrd : Int) (timestamp : String)
    (propertyId : String) (clientE : Except PyExc Ga4Client) :
    Except HttpError AnalyticsResponse :=
  let parsed : Option Int :=
    match daysParam with
    | none => some 30
    | some s => pyIntParse s
  match parsed with
  | some n =>
      if 1 ≤ n ∧ n ≤ 365 then get_analytics n todayOrd timestamp propertyId clientE
      else .error ⟨422, validationDetail⟩
  | none => .error ⟨422, validationDetail⟩

/-- Lines 30-36: HTTP Basic credential check.  `secrets.compare_digest` is
string equality (its constant-time execution is not observable in this
model). -/
def verify_admin (username password adminUsername adminPassword : String) :
    Except HttpError String :=
  if username = adminUsername ∧ password = adminPassword then .ok username
  else .error ⟨401, "Invalid credentials"⟩

/-! ## Concrete fixtures for witnesses and counterexamples -/

/-- A backend whose every report succeeds with zero rows. -/
def zeroClient : Ga4Client := fun _ => .ok ⟨[], [], []⟩

def emptyTraffic : TrafficOverTime := ⟨[], [], [], [], []⟩

def emptySources : TrafficSources := ⟨[], [], []⟩

/-- Device breakdown computed from zero rows. -/
def zeroDevices : DeviceCategory :=
  ⟨["Desktop", "Mobile", "Tablet"], [0, 0, 0], ["#3b82f6", "#10b981", "#8b5cf6"]⟩

/-- The full response of a run with `days = 7`, today = ordinal 738950
(2024-03-05), and `zeroClient`. -/
def zeroRunResponse : AnalyticsResponse :=
  { status := "success"
    days := 7
    startDate := "2024-02-28"
    endDate := "2024-03-05"
    data := { overview := none
              trafficOverTime := emptyTraffic
              topPages := []
              deviceCategory := zeroDevices
              trafficSources := emptySources }
    timestamp := "t0" }

example : get_analytics 7 738950 "t0" "p0" (.ok zeroClient) = .ok zeroRunResponse := by decide

/-- A backend whose overview report (the one with no dimensions) carries a
malformed `sessions` value; all other reports return zero rows. -/
def badOverviewClient : Ga4Client := fun req =>
  if req.dimensions.isEmpty then .ok ⟨[], ["sessions"], [([], ["abc"])]⟩
  else .ok ⟨[], [], []⟩

example :
    get_analytics 30 738950 "t0" "p0" (.ok badOverviewClient) =
      .error ⟨400, "Invalid days value: could not convert string to float: \x27abc\x27"⟩ := by
  decide

/-- A backend whose every call raises a generic (non-`ValueError`)
exception. -/
def failClient : Ga4Client := fun _ => .error (.generic "boom")

/-- The overview row of the spec's conversion-rate example:
`sessions=0, conversions=5`. -/
def c6row : Record := [("sessions", "0"), ("conversions", "5")]

/-- The overview computed from `c6row` (all other metrics default to 0). -/
def c6overview : Overview :=
  { periodDays := 30
    startDate := "s0"
    endDate := "e0"
    totalUsers := 0
    newUsers := 0
    sessions := 0
    engagedSessions := 0
    pageViews := 0
    avgSessionDuration := "0:00"
    bounceRate := 0
    engagementRate := 0
    conversions := 5
    conversionRate := 500 }

/-- `Bool`-level statement that the `days` query string is outside the
accepted range: it fails integer coercion or lands outside `[1, 365]`. -/
def daysOutOfRange (s : String) : Bool :=
  match pyIntParse s with
  | some n => n < 1 ∨ 365 < n
  | none => true

/-! # Claim theorems -/

/-! ## C1 — exception mapping of the `/analytics` handler -/

/-- **C1, counterexample.**  The claim says every exception raised while
querying or aggregating (other than auth/days-validation failures) yields
HTTP 500 with detail `"Analytics error: <msg>"`.  But the handler's
`except ValueError` clause precedes `except Exception`, so a `ValueError`
raised while *aggregating* — here, `float("abc")` on a malformed backend
`sessions` value — is mapped to HTTP 400 with an `"Invalid days value: ..."`
detail instead, even though the request's `days` value (30) was valid. -/
theorem analytics_error_400_counterexample :
    get_analytics 30 738950 "t0" "p0" (.ok badOverviewClient) =
      .error ⟨400, "Invalid days value: could not convert string to float: \x27abc\x27"⟩ ∧
    (400 : Nat) ≠ 500 := by
  decide

/-- **C1 (amended).**  Every exception raised while querying or aggregating
that is **not a `ValueError`** terminates the handler with HTTP 500 and
detail `"Analytics error: <msg>"`; a `ValueError` raised in that phase is
instead mapped to HTTP 400 with detail `"Invalid days value: <msg>"`; and no
partial data payload is ever returned: a (full) response comes out only when
the whole pipeline succeeded. -/
theorem analytics_exception_mapping (days todayOrd : Int) (timestamp propertyId : String)
    (clientE : Except PyExc Ga4Client) :
    (∀ m, runPipeline days todayOrd timestamp propertyId clientE = .error (.generic m) →
      get_analytics days todayOrd timestamp propertyId clientE =
        .error ⟨500, "Analytics error: " ++ m⟩)
    ∧ (∀ m, runPipeline days todayOrd timestamp propertyId clientE = .error (.valueError m) →
      get_analytics days todayOrd timestamp propertyId clientE =
        .error ⟨400, "Invalid days value: " ++ m⟩)
    ∧ (∀ r, get_analytics days todayOrd timestamp propertyId clientE = .ok r →
      runPipeline days todayOrd timestamp propertyId clientE = .ok r) := by
  refine ⟨fun m h => ?_, fun m h => ?_, fun r h => ?_⟩
  · unfold get_analytics
    rw [h]
  · unfold get_analytics
    rw [h]
  · unfold get_analytics at h
    cases hp : runPipeline days todayOrd timestamp propertyId clientE with
    | ok r2 => rw [hp] at h; cases h; rfl
    | error e => rw [hp] at h; cases e <;> cases h

theorem analytics_exception_mapping_witness :
    get_analytics 30 738950 "t0" "p0" (.ok failClient) =
      .error ⟨500, "Analytics error: boom"⟩ :=
  (analytics_exception_mapping 30 738950 "t0" "p0" (.ok failClient)).1 "boom" (by decide)

/-! ## C3 — validation of the `days` query parameter -/

/-- **C3, counterexample.**  The claim says out-of-range `days` values yield
HTTP **400**.  FastAPI validates `Query(30, ge=1, le=365)` before the handler
runs, and its default `RequestValidationError` response status is **422**:
`days=0` and `days=366` both produce 422, not 400. -/
theorem days_validation_422_counterexample :
    analyticsEndpoint (some "0") 738950 "t0" "p0" (.ok zeroClient) =
      .error ⟨422, validationDetail⟩ ∧
    analyticsEndpoint (some "366") 738950 "t0" "p0" (.ok zeroClient) =
      .error ⟨422, validationDetail⟩ ∧
    (422 : Nat) ≠ 400 := by
  decide

/-- **C3 (amended).**  For every value of the `days` query parameter outside
the integer range `[1, 365]` (0, 366, negative, non-integer), the endpoint
rejects the request with HTTP **422** (FastAPI's validation status, not 400),
and no aggregation is performed: the result is a constant error independent
of the backend client. -/
theorem days_validation_rejects (s : String) (todayOrd : Int) (timestamp propertyId : String)
    (clientE : Except PyExc Ga4Client) (h : daysOutOfRange s = true) :
    analyticsEndpoint (some s) todayOrd timestamp propertyId clientE =
      .error ⟨422, validationDetail⟩ := by
  unfold daysOutOfRange at h
  unfold analyticsEndpoint
  cases hp : pyIntParse s with
  | none => simp [hp]
  | some n =>
      rw [hp] at h
      simp only [decide_eq_true_eq] at h
      have hn : ¬ (1 ≤ n ∧ n ≤ 365) := by omega
      simp [hp, hn]

theorem days_validation_rejects_witness :
    analyticsEndpoint (some "400") 738950 "t0" "p0" (.ok zeroClient) =
      .error ⟨422, validationDetail⟩ :=
  days_validation_rejects "400" 738950 "t0" "p0" (.ok zeroClient) (by decide)

/-! ## C4 — `format_duration` -/

/-- **C4, counterexample.**  The claim computes minutes/seconds from
`floor(seconds)`; the code uses Python `int()`, which truncates toward zero.
They disagree on negative non-integer input: `format_duration("-0.5")`
returns `"0:00"` (truncation gives 0), while the claimed floor-based formula
gives `"-1:59"`. -/
theorem format_duration_floor_counterexample :
    pyFloat "-0.5" = some (Rat.divInt (-1) 2) ∧
    format_duration "-0.5" = "0:00" ∧
    claimedDurationFormat "-0.5" = "-1:59" ∧
    format_duration "-0.5" ≠ claimedDurationFormat "-0.5" := by
  decide

/-- **C4 (amended).**  For every input string that parses as a float, the
result is `"M:SS"` where `M` and `SS` are the unique quotient/remainder
decomposition (with `0 ≤ SS < 60`) of the parsed value **truncated toward
zero** (Python `int()`, not mathematical floor), `M` unpadded and `SS`
zero-padded to two digits; every unparsable input yields `"0:00"` and the
function never raises.  Includes the spec's concrete examples. -/
theorem format_duration_correct :
    (∀ s q, pyFloat s = some q →
      ∃ m ss : Int, pyTrunc q = 60 * m + ss ∧ 0 ≤ ss ∧ ss < 60 ∧
        format_duration s = toString m ++ ":" ++ pad2Int ss)
    ∧ (∀ s, pyFloat s = none → format_duration s = "0:00")
    ∧ format_duration "125" = "2:05"
    ∧ format_duration "0" = "0:00"
    ∧ format_duration "abc" = "0:00" := by
  refine ⟨fun s q h => ?_, fun s h => ?_, by decide, by decide, by decide⟩
  · refine ⟨Int.fdiv (pyTrunc q) 60, Int.fmod (pyTrunc q) 60, ?_, ?_, ?_, ?_⟩
    · have hd := Int.fmod_add_fdiv (pyTrunc q) 60
      omega
    · rw [Int.fmod_eq_emod _ (by norm_num)]
      exact Int.emod_nonneg _ (by norm_num)
    · exact Int.fmod_lt_of_pos _ (by norm_num)
    · unfold format_duration
      rw [h]
  · unfold format_duration
    rw [h]

theorem format_duration_correct_witness :
    format_duration "125" = "2:05" ∧ format_duration "xyz" = "0:00" := by
  constructor
  · obtain ⟨m, ss, h1, h2, h3, h4⟩ := format_duration_correct.1 "125" 125 (by decide)
    have hms : m = 2 ∧ ss = 5 := by
      have ht : pyTrunc (125 : ℚ) = 125 := by decide
      rw [ht] at h1
      omega
    rw [h4, hms.1, hms.2]
    decide
  · exact format_duration_correct.2.1 "xyz" (by decide)

/-! ## C6 — overview conversion rate -/

/-- **C6.**  For every overview row from which the handler builds a summary,
`conversionRate = round1(conversions / max(sessions, 1) * 100)` on the values
parsed as floats; and on the spec's example row (`sessions=0`,
`conversions=5`) the computation succeeds — no division-by-zero error — with
result `500.0`. -/
theorem conversion_rate_correct :
    (∀ days sd ed dta rest o s c,
      computeOverview days sd ed (dta :: rest) = .ok (some o) →
      getF dta "sessions" = .ok s → getF dta "conversions" = .ok c →
      o.conversionRate = pyRound1 (c / max s 1 * 100))
    ∧ computeOverview 30 "s0" "e0" [c6row] = .ok (some c6overview)
    ∧ c6overview.conversionRate = 500 := by
  refine ⟨fun days sd ed dta rest o s c h hs hc => ?_, by decide, by decide⟩
  unfold computeOverview at h
  rw [bindE_ok] at h
  obtain ⟨ts, hts, h⟩ := h
  rw [bindE_ok] at h
  obtain ⟨v1, hv1, h⟩ := h
  rw [bindE_ok] at h
  obtain ⟨v2, hv2, h⟩ := h
  rw [bindE_ok] at h
  obtain ⟨v3, hv3, h⟩ := h
  rw [bindE_ok] at h
  obtain ⟨v4, hv4, h⟩ := h
  rw [bindE_ok] at h
  obtain ⟨v5, hv5, h⟩ := h
  rw [bindE_ok] at h
  obtain ⟨v6, hv6, h⟩ := h
  rw [bindE_ok] at h
  obtain ⟨cv, hcv, h⟩ := h
  rw [hts] at hs
  cases hs
  rw [hcv] at hc
  cases hc
  cases h
  simp only [qMul_eq, qDiv_eq, qOfInt_eq, clamp1_eq]
  norm_num

theorem conversion_rate_correct_witness :
    c6overview.conversionRate = pyRound1 ((5 : ℚ) / max 0 1 * 100) :=
  conversion_rate_correct.1 30 "s0" "e0" c6row [] c6overview 0 5 (by decide) (by decide)
    (by decide)

/-! ## C7 — device breakdown -/

theorem getF_ok_getFD (r : Record) (key : String) (q : ℚ) (h : getF r key = .ok q) :
    getFD r key = q := by
  unfold getF at h
  unfold getFD
  cases hl : rlookup r key with
  | none =>
      rw [hl] at h
      dsimp only at h ⊢
      cases h
      rfl
  | some s =>
      rw [hl] at h
      unfold pyFloatE at h
      dsimp only at h ⊢
      cases hf : pyFloat s with
      | none => rw [hf] at h; cases h
      | some v => rw [hf] at h; cases h; rfl

/-- Whether a row's (lowercased) device category equals `cat`. -/
def devMatches (cat : String) (r : Record) : Bool :=
  strLower (rgetD r "deviceCategory" "other") = cat

/-- Total of `int(float(row.get("activeUsers", 0)))` over all rows (using the
parse-or-zero reading `getFD`, which coincides with the code wherever the
code does not raise). -/
def sumUsers (raw : List Record) : Int :=
  (raw.map (fun r => pyTrunc (getFD r "activeUsers"))).sum

/-- Same total restricted to rows whose lowercased category is `cat`. -/
def sumUsersIn (cat : String) (raw : List Record) : Int :=
  sumUsers (raw.filter (devMatches cat))

theorem sumUsersIn_cons (cat : String) (item : Record) (rest : List Record) :
    sumUsersIn cat (item :: rest) =
      (if strLower (rgetD item "deviceCategory" "other") = cat
       then pyTrunc (getFD item "activeUsers") else 0) + sumUsersIn cat rest := by
  unfold sumUsersIn sumUsers devMatches
  by_cases h : strLower (rgetD item "deviceCategory" "other") = cat
  · simp [h]
  · simp [h]

theorem sumUsers_cons (item : Record) (rest : List Record) :
    sumUsers (item :: rest) = pyTrunc (getFD item "activeUsers") + sumUsers rest := by
  simp [sumUsers]

theorem devLoop_ok :
    ∀ (raw : List Record) (acc res : Int × Int × Int × Int), devLoop acc raw = .ok res →
      res.1 = acc.1 + sumUsersIn "desktop" raw ∧
      res.2.1 = acc.2.1 + sumUsersIn "mobile" raw ∧
      res.2.2.1 = acc.2.2.1 + sumUsersIn "tablet" raw ∧
      res.2.2.2 = acc.2.2.2 + sumUsers raw
  | [], acc, res, h => by
      unfold devLoop at h
      cases h
      simp [sumUsersIn, sumUsers]
  | item :: rest, acc, res, h => by
      unfold devLoop at h
      rw [bindE_ok] at h
      obtain ⟨u, hu, h⟩ := h
      dsimp only at h
      have hg : getFD item "activeUsers" = u := getF_ok_getFD _ _ _ hu
      rw [sumUsersIn_cons, sumUsersIn_cons, sumUsersIn_cons, sumUsers_cons, hg]
      by_cases h1 : strLower (rgetD item "deviceCategory" "other") = "desktop"
      · have hm : ¬ strLower (rgetD item "deviceCategory" "other") = "mobile" := by
          rw [h1]; decide
        have ht : ¬ strLower (rgetD item "deviceCategory" "other") = "tablet" := by
          rw [h1]; decide
        rw [if_pos h1] at h
        obtain ⟨e1, e2, e3, e4⟩ := devLoop_ok rest _ _ h
        dsimp only at e1 e2 e3 e4
        rw [if_pos h1, if_neg hm, if_neg ht]
        exact ⟨by omega, by omega, by omega, by omega⟩
      · by_cases h2 : strLower (rgetD item "deviceCategory" "other") = "mobile"
        · have ht : ¬ strLower (rgetD item "deviceCategory" "other") = "tablet" := by
            rw [h2]; decide
          rw [if_neg h1, if_pos h2] at h
          obtain ⟨e1, e2, e3, e4⟩ := devLoop_ok rest _ _ h
          dsimp only at e1 e2 e3 e4
          rw [if_neg h1, if_pos h2, if_neg ht]
          exact ⟨by omega, by omega, by omega, by omega⟩
        · by_cases h3 : strLower (rgetD item "deviceCategory" "other") = "tablet"
          · rw [if_neg h1, if_neg h2, if_pos h3] at h
            obtain ⟨e1, e2, e3, e4⟩ := devLoop_ok rest _ _ h
            dsimp only at e1 e2 e3 e4
            rw [if_neg h1, if_neg h2, if_pos h3]
            exact ⟨by omega, by omega, by omega, by omega⟩
          · rw [if_neg h1, if_neg h2, if_neg h3] at h
            obtain ⟨e1, e2, e3, e4⟩ := devLoop_ok rest _ _ h
            dsimp only at e1 e2 e3 e4
            rw [if_neg h1, if_neg h2, if_neg h3]
            exact ⟨by omega, by omega, by omega, by omega⟩

/-- Device rows of the spec's example: desktop 40, mobile 40, tablet 10,
smarttv 10. -/
def c7rows : List Record :=
  [[("deviceCategory", "desktop"), ("activeUsers", "40")],
   [("deviceCategory", "mobile"), ("activeUsers", "40")],
   [("deviceCategory", "tablet"), ("activeUsers", "10")],
   [("deviceCategory", "smarttv"), ("activeUsers", "10")]]

/-- Breakdown computed from `c7rows`: the `smarttv` users dilute the visible
percentages, which sum to 90. -/
def c7dc : DeviceCategory :=
  ⟨["Desktop", "Mobile", "Tablet"], [40, 40, 10], ["#3b82f6", "#10b981", "#8b5cf6"]⟩

/-- **C7.**  Each device row's category is lowercased and matched against
exactly desktop/mobile/tablet; matching rows add their truncated user count
to their bucket and the shared total, non-matching rows only to the total;
each visible percentage is `round1(bucket / max(total, 1) * 100)`.  On the
spec's example (desktop 40, mobile 40, tablet 10, smarttv 10) the output is
`[40.0, 40.0, 10.0]`, summing to 90. -/
theorem device_breakdown_correct :
    (∀ raw dc, computeDevices raw = .ok dc →
      dc.labels = ["Desktop", "Mobile", "Tablet"] ∧
      dc.data = [pyRound1 ((sumUsersIn "desktop" raw : ℚ) / max (sumUsers raw : ℚ) 1 * 100),
                 pyRound1 ((sumUsersIn "mobile" raw : ℚ) / max (sumUsers raw : ℚ) 1 * 100),
                 pyRound1 ((sumUsersIn "tablet" raw : ℚ) / max (sumUsers raw : ℚ) 1 * 100)])
    ∧ computeDevices c7rows = .ok c7dc
    ∧ c7dc.data = [40, 40, 10]
    ∧ (40 : ℚ) + 40 + 10 = 90 := by
  refine ⟨fun raw dc h => ?_, by decide, by decide, by norm_num⟩
  unfold computeDevices at h
  rw [bindE_ok] at h
  obtain ⟨acc, hacc, h⟩ := h
  obtain ⟨e1, e2, e3, e4⟩ := devLoop_ok raw (0, 0, 0, 0) acc hacc
  cases h
  refine ⟨rfl, ?_⟩
  simp only [qMul_eq, qDiv_eq, qOfInt_eq, clamp1_eq, e1, e2, e3, e4]
  norm_num

theorem device_breakdown_correct_witness :
    c7dc.data = [pyRound1 ((sumUsersIn "desktop" c7rows : ℚ) / max (sumUsers c7rows : ℚ) 1 * 100),
                 pyRound1 ((sumUsersIn "mobile" c7rows : ℚ) / max (sumUsers c7rows : ℚ) 1 * 100),
                 pyRound1 ((sumUsersIn "tablet" c7rows : ℚ) / max (sumUsers c7rows : ℚ) 1 * 100)] :=
  (device_breakdown_correct.1 c7rows c7dc (by decide)).2

/-! ## C8 — row flattening in `get_ga4_data` -/

/-- Last-assignment-wins view of a pair list (helper for dict reasoning). -/
def orD (o a : Option String) : Option String :=
  match o with
  | some v => some v
  | none => a

theorem rlookup_rinsert (r : Record) (k v key : String) :
    rlookup (rinsert r k v) key = if k = key then some v else rlookup r key := by
  induction r with
  | nil => by_cases hk : k = key <;> simp [rinsert, rlookup, hk]
  | cons p rest ih =>
      obtain ⟨pk, pv⟩ := p
      unfold rinsert
      by_cases hp : pk = k
      · rw [if_pos hp]
        by_cases hk : k = key <;> simp [rlookup, hk, hp]
      · rw [if_neg hp]
        by_cases hpk : pk = key
        · have hk : ¬ k = key := fun hkk => hp (hpk.trans hkk.symm)
          simp [rlookup, hpk, hk]
        · by_cases hk : k = key
          · subst hk
            simp [rlookup, hpk, ih]
          · simp [rlookup, hpk, hk, ih]

theorem lookupLast_acc (ps : List (String × String)) (key : String) (a : Option String) :
    ps.foldl (fun acc p => if p.1 = key then some p.2 else acc) a =
      orD (lookupLast ps key) a := by
  induction ps generalizing a with
  | nil => rfl
  | cons p ps ih =>
      unfold lookupLast
      rw [List.foldl_cons, List.foldl_cons, ih, ih]
      by_cases hp : p.1 = key <;>
        cases hll : lookupLast ps key <;>
          simp [orD, hp, lookupLast, hll]

theorem lookupLast_cons (p : String × String) (ps : List (String × String)) (key : String) :
    lookupLast (p :: ps) key =
      orD (lookupLast ps key) (if p.1 = key then some p.2 else none) := by
  have h1 : lookupLast (p :: ps) key =
      ps.foldl (fun acc q => if q.1 = key then some q.2 else acc)
        (if p.1 = key then some p.2 else none) := rfl
  rw [h1, lookupLast_acc]

theorem rlookup_insertPairs (ps : List (String × String)) (r : Record) (key : String) :
    rlookup (insertPairs r ps) key = orD (lookupLast ps key) (rlookup r key) := by
  induction ps generalizing r with
  | nil => rfl
  | cons p ps ih =>
      unfold insertPairs at ih ⊢
      rw [List.foldl_cons, ih, rlookup_rinsert, lookupLast_cons]
      cases hll : lookupLast ps key <;> by_cases hp : p.1 = key <;> simp [orD, hp, hll]

/-- **C8.**  The report fetcher produces one flat record per backend row, in
backend row order; a record's binding at any name carried by a *metric*
header is the (last) metric value under that name — in particular a metric
value overwrites a dimension value inserted earlier under the same name —
and a name carried only by dimension headers (with dimensions requested)
keeps its (last) dimension value. -/
theorem ga4_flatten_correct (pid : String) (client : Ga4Client) (sd ed : String)
    (ms ds : List String) (resp : RunReportResponse) (res : List Record)
    (hc : client (mkReq pid sd ed ms ds) = .ok resp)
    (h : get_ga4_data pid client sd ed ms ds = .ok res) :
    res = resp.rows.map (buildItem resp ds) ∧
    res.length = resp.rows.length ∧
    (∀ row ∈ resp.rows, ∀ k v,
      lookupLast (resp.metric_headers.zip row.2) k = some v →
      rlookup (buildItem resp ds row) k = some v) ∧
    (∀ row ∈ resp.rows, ∀ k, ds ≠ [] →
      lookupLast (resp.metric_headers.zip row.2) k = none →
      rlookup (buildItem resp ds row) k = lookupLast (resp.dimension_headers.zip row.1) k) := by
  unfold get_ga4_data at h
  rw [bindE_ok] at h
  obtain ⟨resp2, hc2, h⟩ := h
  rw [hc] at hc2
  cases hc2
  cases h
  refine ⟨rfl, by rw [List.length_map], fun row _ k v hlast => ?_, fun row _ k hds hlast => ?_⟩
  · unfold buildItem
    rw [rlookup_insertPairs, hlast]
    rfl
  · unfold buildItem
    rw [rlookup_insertPairs, hlast]
    have hne : ¬ ds.isEmpty := by
      cases ds with
      | nil => exact absurd rfl hds
      | cons a l => simp
    rw [if_neg hne, rlookup_insertPairs]
    cases hdl : lookupLast (resp.dimension_headers.zip row.1) k <;> simp [orD, rlookup]

/-- Response with a header name `"x"` shared between dimensions and metrics. -/
def c8resp : RunReportResponse := ⟨["x"], ["x", "m"], [(["dval"], ["mval", "z"])]⟩

def c8client : Ga4Client := fun _ => .ok c8resp

theorem ga4_flatten_correct_witness :
    rlookup (buildItem c8resp ["x"] (["dval"], ["mval", "z"])) "x" = some "mval" :=
  (ga4_flatten_correct "p0" c8client "s" "e" ["x", "m"] ["x"] c8resp
      [[("x", "mval"), ("m", "z")]] (by decide) (by decide)).2.2.1
    (["dval"], ["mval", "z"]) (by decide) "x" "mval" (by decide)

/-! ## C9 — traffic-over-time series -/

theorem charListLt_irrefl : ∀ a, charListLt a a = false
  | [] => rfl
  | c :: cs => by
      unfold charListLt
      rw [if_neg (lt_irrefl c), if_neg (lt_irrefl c)]
      exact charListLt_irrefl cs

theorem charListLt_trans :
    ∀ a b c, charListLt a b = true → charListLt b c = true → charListLt a c = true
  | [], [], _, h1, _ => by simp [charListLt] at h1
  | [], _ :: _, [], _, h2 => by simp [charListLt] at h2
  | [], _ :: _, _ :: _, _, _ => by simp [charListLt]
  | _ :: _, [], _, h1, _ => by simp [charListLt] at h1
  | _ :: _, _ :: _, [], _, h2 => by simp [charListLt] at h2
  | a :: as, b :: bs, c :: cs, h1, h2 => by
      unfold charListLt at h1 h2 ⊢
      by_cases hab : a < b
      · by_cases hbc : b < c
        · rw [if_pos (lt_trans hab hbc)]
        · by_cases hcb : c < b
          · rw [if_neg hbc, if_pos hcb] at h2
            exact absurd h2 (by simp)
          · have hbceq : b = c := le_antisymm (not_lt.mp hcb) (not_lt.mp hbc)
            subst hbceq
            rw [if_pos hab]
      · by_cases hba : b < a
        · rw [if_neg hab, if_pos hba] at h1
          exact absurd h1 (by simp)
        · have habeq : a = b := le_antisymm (not_lt.mp hba) (not_lt.mp hab)
          subst habeq
          rw [if_neg hab, if_neg hba] at h1
          by_cases hac : a < c
          · rw [if_pos hac]
          · by_cases hca : c < a
            · rw [if_neg hac, if_pos hca] at h2
              exact absurd h2 (by simp)
            · rw [if_neg hac, if_neg hca] at h2 ⊢
              exact charListLt_trans as bs cs h1 h2

theorem charListLt_asymm (a b : List Char) (h : charListLt a b = true) :
    charListLt b a = false := by
  cases hba : charListLt b a with
  | false => rfl
  | true =>
      have := charListLt_trans a b a h hba
      rw [charListLt_irrefl] at this
      exact absurd this (by simp)

theorem charListLt_neg_trans (a b c : List Char) (hba : charListLt b a = false)
    (hcb : charListLt c b = false) : charListLt c a = false := by
  cases hca : charListLt c a with
  | false => rfl
  | true =>
      exfalso
      rcases lt_trichotomy_charList c b with h | h | h
      · rw [h] at hcb
        exact absurd hcb (by simp)
      · subst h
        rw [hca] at hba
        exact absurd hba (by simp)
      · have := charListLt_trans b c a h hca
        rw [this] at hba
        exact absurd hba (by simp)
where
  lt_trichotomy_charList : ∀ a b : List Char,
      charListLt a b = true ∨ a = b ∨ charListLt b a = true := by
    intro a b
    induction a generalizing b with
    | nil =>
        cases b with
        | nil => exact .inr (.inl rfl)
        | cons c cs => exact .inl (by simp [charListLt])
    | cons c cs ih =>
        cases b with
        | nil => exact .inr (.inr (by simp [charListLt]))
        | cons d ds =>
            rcases lt_trichotomy c d with h | h | h
            · exact .inl (by unfold charListLt; rw [if_pos h])
            · subst h
              rcases ih ds with h2 | h2 | h2
              · exact .inl (by
                  unfold charListLt
                  rw [if_neg (lt_irrefl c), if_neg (lt_irrefl c)]
                  exact h2)
              · exact .inr (.inl (by rw [h2]))
              · exact .inr (.inr (by
                  unfold charListLt
                  rw [if_neg (lt_irrefl c), if_neg (lt_irrefl c)]
                  exact h2))
            · exact .inr (.inr (by unfold charListLt; rw [if_pos h]))

/-- The non-strict date order used to state sortedness: `a` precedes `b` when
`b`'s raw date key is not smaller than `a`'s. -/
def dateOrdered (a b : Record) : Prop :=
  charListLt (dateKey b).toList (dateKey a).toList = false

theorem insortByDate_perm (r : Record) : ∀ l, (insortByDate r l).Perm (r :: l)
  | [] => List.Perm.refl _
  | x :: xs => by
      unfold insortByDate
      by_cases h : strLt (dateKey x) (dateKey r)
      · rw [if_pos h]
        exact ((insortByDate_perm r xs).cons x).trans (List.Perm.swap r x xs)
      · rw [if_neg h]

theorem insortByDate_sorted (r : Record) :
    ∀ l, l.Pairwise dateOrdered → (insortByDate r l).Pairwise dateOrdered
  | [], _ => by simp [insortByDate, List.pairwise_cons]
  | x :: xs, hp => by
      unfold insortByDate
      obtain ⟨hx, hxs⟩ := List.pairwise_cons.mp hp
      by_cases h : strLt (dateKey x) (dateKey r)
      · rw [if_pos h]
        refine List.pairwise_cons.mpr ⟨fun y hy => ?_, insortByDate_sorted r xs hxs⟩
        rcases List.mem_cons.mp ((insortByDate_perm r xs).mem_iff.mp hy) with rfl | hy2
        · exact charListLt_asymm _ _ h
        · exact hx y hy2
      · rw [if_neg h]
        have hrx : dateOrdered r x := by
          unfold dateOrdered
          unfold strLt at h
          exact Bool.not_eq_true _ ▸ Bool.of_not_eq_true h
        refine List.pairwise_cons.mpr ⟨fun y hy => ?_, hp⟩
        rcases List.mem_cons.mp hy with rfl | hy2
        · exact hrx
        · exact charListLt_neg_trans _ _ _ hrx (hx y hy2)

theorem sortByDate_perm : ∀ l : List Record, (sortByDate l).Perm l
  | [] => List.Perm.refl _
  | x :: xs => by
      unfold sortByDate
      rw [List.foldr_cons]
      exact (insortByDate_perm x _).trans ((sortByDate_perm xs).cons x)

theorem sortByDate_sorted : ∀ l : List Record, (sortByDate l).Pairwise dateOrdered
  | [] => List.Pairwise.nil
  | x :: xs => by
      unfold sortByDate
      rw [List.foldr_cons]
      exact insortByDate_sorted x _ (sortByDate_sorted xs)

theorem trafficLoop_ok :
    ∀ (l : List Record) (acc t : TrafficOverTime), trafficLoop acc l = .ok t →
      t.labels = acc.labels ++ l.map (fun r => format_date_label (rgetD r "date" "")) ∧
      t.activeUsers = acc.activeUsers ++ l.map (fun r => pyTrunc (getFD r "activeUsers")) ∧
      t.sessions = acc.sessions ++ l.map (fun r => pyTrunc (getFD r "sessions")) ∧
      t.pageViews = acc.pageViews ++ l.map (fun r => pyTrunc (getFD r "screenPageViews")) ∧
      t.engagedSessions = acc.engagedSessions ++ l.map (fun r => pyTrunc (getFD r "engagedSessions"))
  | [], acc, t, h => by
      unfold trafficLoop at h
      cases h
      simp
  | r :: rs, acc, t, h => by
      unfold trafficLoop at h
      rw [bindE_ok] at h
      obtain ⟨acc2, hstep, h⟩ := h
      unfold trafficStep at hstep
      rw [bindE_ok] at hstep
      obtain ⟨au, hau, hstep⟩ := hstep
      rw [bindE_ok] at hstep
      obtain ⟨se, hse, hstep⟩ := hstep
      rw [bindE_ok] at hstep
      obtain ⟨pv, hpv, hstep⟩ := hstep
      rw [bindE_ok] at hstep
      obtain ⟨eg, heg, hstep⟩ := hstep
      cases hstep
      obtain ⟨e1, e2, e3, e4, e5⟩ := trafficLoop_ok rs _ t h
      refine ⟨?_, ?_, ?_, ?_, ?_⟩ <;>
        simp [e1, e2, e3, e4, e5, getF_ok_getFD _ _ _ hau, getF_ok_getFD _ _ _ hse,
          getF_ok_getFD _ _ _ hpv, getF_ok_getFD _ _ _ heg]

/-- **C9.**  A successful traffic-over-time computation yields five parallel
sequences of equal length (one entry per fetched row), built over the rows
sorted ascending by raw date string (missing dates keying as `""`): labels
are the formatted dates, the four metric sequences the rows' values parsed
as floats and truncated (0 when the key is missing). -/
theorem traffic_series_correct (raw : List Record) (t : TrafficOverTime)
    (h : computeTraffic raw = .ok t) :
    t.labels.length = raw.length ∧
    t.activeUsers.length = raw.length ∧
    t.sessions.length = raw.length ∧
    t.pageViews.length = raw.length ∧
    t.engagedSessions.length = raw.length ∧
    (sortByDate raw).Perm raw ∧
    (sortByDate raw).Pairwise dateOrdered ∧
    t.labels = (sortByDate raw).map (fun r => format_date_label (rgetD r "date" "")) ∧
    t.activeUsers = (sortByDate raw).map (fun r => pyTrunc (getFD r "activeUsers")) ∧
    t.sessions = (sortByDate raw).map (fun r => pyTrunc (getFD r "sessions")) ∧
    t.pageViews = (sortByDate raw).map (fun r => pyTrunc (getFD r "screenPageViews")) ∧
    t.engagedSessions = (sortByDate raw).map (fun r => pyTrunc (getFD r "engagedSessions")) := by
  unfold computeTraffic at h
  obtain ⟨e1, e2, e3, e4, e5⟩ := trafficLoop_ok (sortByDate raw) ⟨[], [], [], [], []⟩ t h
  have hlen : (sortByDate raw).length = raw.length := (sortByDate_perm raw).length_eq
  simp only [List.nil_append] at e1 e2 e3 e4 e5
  refine ⟨?_, ?_, ?_, ?_, ?_, sortByDate_perm raw, sortByDate_sorted raw, e1, e2, e3, e4, e5⟩ <;>
    simp [e1, e2, e3, e4, e5, hlen]

/-- Two daily rows arriving in reverse chronological order. -/
def c9rows : List Record :=
  [[("date", "20240302"), ("activeUsers", "7"), ("sessions", "8"),
    ("screenPageViews", "9"), ("engagedSessions", "1")],
   [("date", "20240301"), ("activeUsers", "4"), ("sessions", "5"),
    ("screenPageViews", "6"), ("engagedSessions", "2")]]

/-- The series computed from `c9rows` (chronological order restored). -/
def c9t : TrafficOverTime := ⟨["Mar 01", "Mar 02"], [4, 7], [5, 8], [6, 9], [2, 1]⟩

theorem traffic_series_correct_witness :
    computeTraffic c9rows = .ok c9t ∧ c9t.labels.length = c9rows.length :=
  ⟨by decide, (traffic_series_correct c9rows c9t (by decide)).1⟩

/-! ## C10 — empty overview does not abort the handler -/

/-- **C10.**  When the overview query returns zero rows but the other four
queries and aggregations succeed, the handler still succeeds; the response's
`data.overview` is the empty object (`none`, i.e. the Python `{}` — no
fields at all), and the other four aggregates are the computed ones. -/
theorem empty_overview_correct (days todayOrd : Int) (ts pid : String) (client : Ga4Client)
    (sd ed : String) (r1 r2 r3 r4 r5 : RunReportResponse) (t : TrafficOverTime)
    (tp : List TopPage) (dc : DeviceCategory) (srcs : TrafficSources)
    (hsd : sd = formatYMD (todayOrd - (days - 1)))
    (hed : ed = formatYMD todayOrd)
    (h1 : client (mkReq pid sd ed overviewMetrics []) = .ok r1)
    (hrows : r1.rows = [])
    (h2 : client (mkReq pid sd ed trafficMetrics ["date"]) = .ok r2)
    (ht : computeTraffic (r2.rows.map (buildItem r2 ["date"])) = .ok t)
    (h3 : client (mkReq pid sd ed topPagesMetrics ["pagePath"]) = .ok r3)
    (htp : topPagesLoop ((r3.rows.map (buildItem r3 ["pagePath"])).take 10) = .ok tp)
    (h4 : client (mkReq pid sd ed ["activeUsers"] ["deviceCategory"]) = .ok r4)
    (hdc : computeDevices (r4.rows.map (buildItem r4 ["deviceCategory"])) = .ok dc)
    (h5 : client (mkReq pid sd ed ["sessions", "activeUsers"]
        ["sessionDefaultChannelGroup"]) = .ok r5)
    (hsrc : computeSources ((r5.rows.map
        (buildItem r5 ["sessionDefaultChannelGroup"])).take 8) = .ok srcs) :
    get_analytics days todayOrd ts pid (.ok client) =
      .ok { status := "success"
            days := days
            startDate := sd
            endDate := ed
            data := { overview := none
                      trafficOverTime := t
                      topPages := tp
                      deviceCategory := dc
                      trafficSources := srcs }
            timestamp := ts } := by
  subst hsd
  subst hed
  unfold get_analytics runPipeline get_ga4_data
  simp only [bindE, h1, h2, h3, h4, h5, hrows, List.map_nil, computeOverview, ht, htp, hdc, hsrc]

theorem empty_overview_correct_witness :
    get_analytics 7 738950 "t0" "p0" (.ok zeroClient) = .ok zeroRunResponse :=
  empty_overview_correct 7 738950 "t0" "p0" zeroClient "2024-02-28" "2024-03-05"
    ⟨[], [], []⟩ ⟨[], [], []⟩ ⟨[], [], []⟩ ⟨[], [], []⟩ ⟨[], [], []⟩
    emptyTraffic [] zeroDevices emptySources
    (by decide) (by decide) (by decide) (by decide) (by decide) (by decide) (by decide)
    (by decide) (by decide) (by decide) (by decide) (by decide)

/-! ## C2 — the date window

The clock hypotheses below (`438665 ≤ todayOrd ≤ 2921940`, i.e. any "today"
between the years 1202 and 8000) cover every date a running system's clock
can plausibly report while keeping the window inside the range where
`strftime("%Y")` has exactly four digits. -/

theorem cfdYoe_le (doe : Nat) (h : doe ≤ 146096) : cfdYoe doe ≤ 399 := by
  unfold cfdYoe
  omega

theorem cfdDoy_le (doe : Nat) (h : doe ≤ 146096) : cfdDoy doe ≤ 366 := by
  unfold cfdDoy cfdYoe
  omega

theorem cfdMp_le (doy : Nat) (h : doy ≤ 366) : cfdMp doy ≤ 11 := by
  unfold cfdMp
  omega

theorem cfdDay_le (doy : Nat) (_h : doy ≤ 366) :
    doy - (153 * cfdMp doy + 2) / 5 + 1 ≤ 31 := by
  unfold cfdMp
  omega

theorem civilFromDays_bounds (z0 y m d : Nat) (hlo : 438300 ≤ z0) (hhi : z0 ≤ 2921940)
    (h : civilFromDays z0 = (y, m, d)) :
    1000 ≤ y ∧ y ≤ 9999 ∧ 1 ≤ m ∧ m ≤ 12 ∧ 1 ≤ d ∧ d ≤ 31 := by
  have hdoe : cfdDoe (z0 + 305) ≤ 146096 := by unfold cfdDoe; omega
  have hyoe : cfdYoe (cfdDoe (z0 + 305)) ≤ 399 := cfdYoe_le _ hdoe
  have hdoy : cfdDoy (cfdDoe (z0 + 305)) ≤ 366 := cfdDoy_le _ hdoe
  have hmp : cfdMp (cfdDoy (cfdDoe (z0 + 305))) ≤ 11 := cfdMp_le _ hdoy
  have hera_lo : 3 ≤ cfdEra (z0 + 305) := by unfold cfdEra; omega
  have hera_hi : cfdEra (z0 + 305) ≤ 20 := by unfold cfdEra; omega
  have hd31 := cfdDay_le _ hdoy
  unfold civilFromDays at h
  dsimp only at h
  split_ifs at h <;>
    (rw [Prod.mk.injEq, Prod.mk.injEq] at h; obtain ⟨hy, hm, hd⟩ := h; omega)

theorem digitChar_isDigit (k : Nat) (hk : k ≤ 9) : (digitChar k).isDigit = true := by
  interval_cases k <;> decide

theorem yearStr_digits (y : Nat) (h1 : 1000 ≤ y) (h2 : y ≤ 9999) :
    (yearStr y).toList =
      [digitChar (y / 1000), digitChar (y / 100 % 10), digitChar (y / 10 % 10),
       digitChar (y % 10)] := by
  unfold yearStr
  rw [if_neg (by omega), if_neg (by omega), if_neg (by omega)]
  rfl

theorem toList_append (a b : String) : (a ++ b).toList = a.toList ++ b.toList :=
  String.data_append a b

theorem pad2_toList (n : Nat) : (pad2 n).toList = [digitChar (n / 10), digitChar (n % 10)] :=
  rfl

theorem formatYMD_shape (n : Int) (hlo : 438300 ≤ n) (hhi : n ≤ 2921940) :
    isYMDFormat (formatYMD n) = true := by
  unfold formatYMD
  rcases hcv : civilFromDays n.toNat with ⟨y, m, d⟩
  obtain ⟨hy1, hy2, hm1, hm2, hd1, hd2⟩ :=
    civilFromDays_bounds n.toNat y m d (by omega) (by omega) hcv
  dsimp only
  have g1 : (digitChar (y / 1000)).isDigit = true := digitChar_isDigit _ (by omega)
  have g2 : (digitChar (y / 100 % 10)).isDigit = true := digitChar_isDigit _ (by omega)
  have g3 : (digitChar (y / 10 % 10)).isDigit = true := digitChar_isDigit _ (by omega)
  have g4 : (digitChar (y % 10)).isDigit = true := digitChar_isDigit _ (by omega)
  have g5 : (digitChar (m / 10)).isDigit = true := digitChar_isDigit _ (by omega)
  have g6 : (digitChar (m % 10)).isDigit = true := digitChar_isDigit _ (by omega)
  have g7 : (digitChar (d / 10)).isDigit = true := digitChar_isDigit _ (by omega)
  have g8 : (digitChar (d % 10)).isDigit = true := digitChar_isDigit _ (by omega)
  unfold isYMDFormat
  rw [toList_append, toList_append, toList_append, toList_append,
    yearStr_digits y hy1 hy2, pad2_toList, pad2_toList]
  simp [g1, g2, g3, g4, g5, g6, g7, g8]

/-- The response fields fixed by a successful pipeline run, independent of
the backend data. -/
theorem runPipeline_ok_dates (days todayOrd : Int) (ts pid : String)
    (clientE : Except PyExc Ga4Client) (r : AnalyticsResponse)
    (h : runPipeline days todayOrd ts pid clientE = .ok r) :
    r.status = "success" ∧ r.days = days ∧
    r.startDate = formatYMD (todayOrd - (days - 1)) ∧
    r.endDate = formatYMD todayOrd ∧ r.timestamp = ts := by
  unfold runPipeline at h
  rw [bindE_ok] at h
  obtain ⟨client, _, h⟩ := h
  dsimp only at h
  rw [bindE_ok] at h
  obtain ⟨a1, _, h⟩ := h
  rw [bindE_ok] at h
  obtain ⟨a2, _, h⟩ := h
  rw [bindE_ok] at h
  obtain ⟨a3, _, h⟩ := h
  rw [bindE_ok] at h
  obtain ⟨a4, _, h⟩ := h
  rw [bindE_ok] at h
  obtain ⟨a5, _, h⟩ := h
  rw [bindE_ok] at h
  obtain ⟨a6, _, h⟩ := h
  rw [bindE_ok] at h
  obtain ⟨a7, _, h⟩ := h
  rw [bindE_ok] at h
  obtain ⟨a8, _, h⟩ := h
  rw [bindE_ok] at h
  obtain ⟨a9, _, h⟩ := h
  rw [bindE_ok] at h
  obtain ⟨a10, _, h⟩ := h
  cases h
  exact ⟨rfl, rfl, rfl, rfl, rfl⟩

/-- **C2.**  For `days` in `[1, 365]` and any plausible clock value, a
successful handler run reports `endDate` = today and `startDate` =
today − (days − 1) in ordinal arithmetic (so the window spans exactly `days`
calendar days inclusive), and both dates are rendered in `YYYY-MM-DD`
shape. -/
theorem date_window_correct (days todayOrd : Int) (ts pid : String)
    (clientE : Except PyExc Ga4Client) (r : AnalyticsResponse)
    (hd1 : 1 ≤ days) (hd2 : days ≤ 365)
    (ht1 : 438665 ≤ todayOrd) (ht2 : todayOrd ≤ 2921940)
    (h : get_analytics days todayOrd ts pid clientE = .ok r) :
    r.endDate = formatYMD todayOrd ∧
    r.startDate = formatYMD (todayOrd - (days - 1)) ∧
    todayOrd - (todayOrd - (days - 1)) + 1 = days ∧
    isYMDFormat r.endDate = true ∧
    isYMDFormat r.startDate = true := by
  have hrp : runPipeline days todayOrd ts pid clientE = .ok r := by
    unfold get_analytics at h
    cases hp : runPipeline days todayOrd ts pid clientE with
    | ok r2 =>
        rw [hp] at h
        cases h
        rfl
    | error e =>
        rw [hp] at h
        cases e <;> cases h
  obtain ⟨_, _, hsd, hed, _⟩ := runPipeline_ok_dates days todayOrd ts pid clientE r hrp
  refine ⟨hed, hsd, by omega, ?_, ?_⟩
  · rw [hed]
    exact formatYMD_shape todayOrd (by omega) (by omega)
  · rw [hsd]
    exact formatYMD_shape _ (by omega) (by omega)

theorem date_window_correct_witness :
    zeroRunResponse.endDate = formatYMD 738950 ∧
    zeroRunResponse.startDate = formatYMD (738950 - (7 - 1)) ∧
    (738950 : Int) - (738950 - (7 - 1)) + 1 = 7 ∧
    isYMDFormat zeroRunResponse.endDate = true ∧
    isYMDFormat zeroRunResponse.startDate = true :=
  date_window_correct 7 738950 "t0" "p0" (.ok zeroClient) zeroRunResponse
    (by decide) (by decide) (by decide) (by decide) (by decide)

/-! ## C5 — `format_date_label` -/

/-- **C5, counterexample.**  The claim says every string that is not an
8-digit `YYYYMMDD` date comes back unchanged.  But `strptime`'s `%m`/`%d`
groups also accept unpadded 1-digit values, so the *7-digit* string
`"2024305"` parses (year 2024, month 3, day 05) and is formatted rather than
returned unchanged. -/
theorem format_date_label_seven_digit_counterexample :
    format_date_label "2024305" = "Mar 05" ∧ "2024305" ≠ "Mar 05" := by
  decide

theorem digitChar_toNat (k : Nat) (h : k ≤ 9) : (digitChar k).toNat = 48 + k := by
  interval_cases k <;> decide

theorem pad4_toList (n : Nat) :
    (pad4 n).toList =
      [digitChar (n / 1000), digitChar (n / 100 % 10), digitChar (n / 10 % 10),
       digitChar (n % 10)] :=
  rfl

theorem digitsToNat_pad4 (y : Nat) (h : y ≤ 9999) :
    digitsToNat
      [digitChar (y / 1000), digitChar (y / 100 % 10), digitChar (y / 10 % 10),
       digitChar (y % 10)] = y := by
  have e1 := digitChar_toNat (y / 1000) (by omega)
  have e2 := digitChar_toNat (y / 100 % 10) (by omega)
  have e3 := digitChar_toNat (y / 10 % 10) (by omega)
  have e4 := digitChar_toNat (y % 10) (by omega)
  simp [digitsToNat, e1, e2, e3, e4]
  omega

/-- First month alternative matched on a zero-padded month: the two-digit
parse, with the input's tail untouched. -/
theorem monthCands_padded (m : Nat) (h1 : 1 ≤ m) (h2 : m ≤ 12) (rest : List Char) :
    ∃ tl, monthCands ((pad2 m).toList ++ rest) = (m, rest) :: tl := by
  interval_cases m <;> exact ⟨_, rfl⟩

/-- First day alternative matched on a zero-padded day at the end of the
input: the two-digit parse, consuming everything. -/
theorem dayCands_padded (d : Nat) (h1 : 1 ≤ d) (h2 : d ≤ 31) :
    ∃ tl, dayCands (pad2 d).toList = (d, []) :: tl := by
  interval_cases d <;> exact ⟨_, rfl⟩

theorem daysInMonth_le (y m : Nat) : daysInMonth y m ≤ 31 := by
  unfold daysInMonth
  split_ifs <;> omega

theorem strptimeYmd_padded (y m d : Nat) (hy1 : 1 ≤ y) (hy2 : y ≤ 9999)
    (hm1 : 1 ≤ m) (hm2 : m ≤ 12) (hd1 : 1 ≤ d) (hd2 : d ≤ daysInMonth y m) :
    strptimeYmd (pad4 y ++ pad2 m ++ pad2 d) = some (y, m, d) := by
  have hd31 : d ≤ 31 := le_trans hd2 (daysInMonth_le y m)
  have g1 : (digitChar (y / 1000)).isDigit = true := digitChar_isDigit _ (by omega)
  have g2 : (digitChar (y / 100 % 10)).isDigit = true := digitChar_isDigit _ (by omega)
  have g3 : (digitChar (y / 10 % 10)).isDigit = true := digitChar_isDigit _ (by omega)
  have g4 : (digitChar (y % 10)).isDigit = true := digitChar_isDigit _ (by omega)
  obtain ⟨tlm, hmc⟩ := monthCands_padded m hm1 hm2 (pad2 d).toList
  obtain ⟨tld, hdc⟩ := dayCands_padded d hd1 hd31
  unfold strptimeYmd
  rw [toList_append, toList_append, pad4_toList]
  rw [List.append_assoc]
  rw [List.cons_append, List.cons_append, List.cons_append, List.cons_append,
    List.nil_append]
  unfold ymdMatch
  dsimp only
  rw [if_pos ⟨g1, g2, g3, g4⟩]
  rw [hmc, List.findSome?_cons]
  rw [hdc, List.findSome?_cons]
  rw [if_pos rfl]
  rw [digitsToNat_pad4 y hy2]
  dsimp only
  rw [if_pos ⟨hy1, hd2⟩]

/-- **C5 (amended).**  Every canonical 8-digit `YYYYMMDD` rendering of a
valid calendar date is formatted as abbreviated month + zero-padded day, and
every string rejected by `strptime`'s (flexible) `%Y%m%d` parse is returned
unchanged; but the parse also accepts some 6- and 7-digit strings (unpadded
month/day), which are likewise formatted rather than passed through.
Includes the spec's concrete examples. -/
theorem format_date_label_correct :
    (∀ y m d, 1 ≤ y → y ≤ 9999 → 1 ≤ m → m ≤ 12 → 1 ≤ d → d ≤ daysInMonth y m →
      format_date_label (pad4 y ++ pad2 m ++ pad2 d) = monthAbbr m ++ " " ++ pad2 d)
    ∧ (∀ s, strptimeYmd s = none → format_date_label s = s)
    ∧ format_date_label "20240305" = "Mar 05"
    ∧ format_date_label "notadate" = "notadate" := by
  refine ⟨fun y m d hy1 hy2 hm1 hm2 hd1 hd2 => ?_, fun s h => ?_, by decide, by decide⟩
  · unfold format_date_label
    rw [strptimeYmd_padded y m d hy1 hy2 hm1 hm2 hd1 hd2]
  · unfold format_date_label
    rw [h]

theorem format_date_label_correct_witness :
    format_date_label (pad4 2024 ++ pad2 3 ++ pad2 5) = monthAbbr 3 ++ " " ++ pad2 5 ∧
    format_date_label "nope" = "nope" :=
  ⟨format_date_label_correct.1 2024 3 5 (by decide) (by decide) (by decide) (by decide)
      (by decide) (by decide),
   format_date_label_correct.2.1 "nope" (by decide)⟩

end GA
